import Mathlib

/-
Shallow embedding of the Aspia peer client authenticator
(src/source/peer/client_authenticator.cc) and the relay session
(src/source/relay/session.cc).

Conventions:
* byte strings (base::ByteArray, std::string) are `List Nat`, one element
  per byte;
* BigNums are `Nat`; `base::BigNum::fromStdString` is big-endian decoding
  (`beBytesToNat`) and `toStdString` / `toByteArray` is `natToBeBytes`;
* the external crypto library (BLAKE2s, SRP math helpers, X25519, RNG) and
  the pinned SRP group constants live outside this repository's sources, so
  they are parameters of the model (`SrpEnv`, `HelloEnv`, `NgPairs`);
* the one-shot result callback is modelled by recording every invocation in
  `callbacks`; outbound channel messages are recorded in `sent`; every
  installation of an AEAD encryptor/decryptor pair on the channel is
  recorded in `installed` as `(key, encrypt_iv, decrypt_iv)`.
-/

/-- Big-endian byte decoding, as done by base::BigNum::fromStdString. -/
def beBytesToNat (bytes : List Nat) : Nat :=
  bytes.foldl (fun acc b => acc * 256 + b) 0

/-- Fuel-driven helper for big-endian encoding of a Nat. -/
def natToBeBytesAux : Nat → Nat → List Nat
  | 0, _ => []
  | fuel + 1, n => if n = 0 then [] else natToBeBytesAux fuel (n / 256) ++ [n % 256]

/-- Minimal big-endian byte encoding of a Nat, as done by
base::BigNum::toByteArray / toStdString. -/
def natToBeBytes (n : Nat) : List Nat :=
  natToBeBytesAux n n

namespace peer

/-- ClientAuthenticator::ErrorCode. -/
inductive ErrorCode
  | SUCCESS
  | NETWORK_ERROR
  | PROTOCOL_ERROR
  | ACCESS_DENIED
  | SESSION_DENIED
  | UNKNOWN_ERROR
deriving DecidableEq

/-- ClientAuthenticator::State. -/
inductive AuthState
  | SEND_CLIENT_HELLO
  | READ_SERVER_HELLO
  | SEND_IDENTIFY
  | READ_SERVER_KEY_EXCHANGE
  | SEND_CLIENT_KEY_EXCHANGE
  | READ_SESSION_CHALLENGE
  | SEND_SESSION_RESPONSE
  | FINISHED
deriving DecidableEq

/-- proto::Identify. -/
inductive ProtoIdentify
  | IDENTIFY_SRP
  | IDENTIFY_ANONYMOUS
deriving DecidableEq

/-- proto::Encryption bit values (the ClientHello field is a bitmask over
these; the ServerHello field carries exactly one of them). -/
def ENCRYPTION_AES256_GCM : Nat := 1

def ENCRYPTION_CHACHA20_POLY1305 : Nat := 2

/-- The error codes base::NetworkChannel can report on disconnect, reduced to
the one distinction ClientAuthenticator::onDisconnected makes. -/
inductive ChannelError
  | ACCESS_DENIED
  | OTHER
deriving DecidableEq

/-- proto::ServerHello. -/
structure ServerHelloMsg where
  encryption : Nat
  iv : List Nat
deriving DecidableEq

/-- proto::SrpServerKeyExchange. -/
structure SrpServerKeyExchangeMsg where
  number : List Nat
  generator : List Nat
  salt : List Nat
  b : List Nat
  iv : List Nat
deriving DecidableEq

/-- proto::SessionChallenge (version flattened to a triple). -/
structure SessionChallengeMsg where
  session_types : Nat
  version : Nat × Nat × Nat
deriving DecidableEq

/-- Outbound messages recorded on the channel. -/
inductive OutMsg
  | clientHello (encryption : Nat) (identify : ProtoIdentify)
      (public_key : List Nat) (iv : List Nat)
  | srpIdentify (username : List Nat)
  | srpClientKeyExchange (A : List Nat) (iv : List Nat)
  | sessionResponse (session_type : Nat)
deriving DecidableEq

/-- A received wire buffer, viewed through each parse the authenticator may
attempt on it (base::parse into the message type chosen by the state). -/
structure BufferView where
  asServerHello : Option ServerHelloMsg
  asKeyExchange : Option SrpServerKeyExchangeMsg
  asChallenge : Option SessionChallengeMsg

/-- The three pinned SRP groups base::kSrpNgPair_4096 / _6144 / _8192.
The constants themselves live in base/crypto/srp_constants.cc, outside the
sources under study, so the pairs are parameters of the model; the sources
fix only their byte lengths (512, 768 and 1024). -/
structure NgPairs where
  p4096 : List Nat × List Nat
  p6144 : List Nat × List Nat
  p8192 : List Nat × List Nat

/-- The external crypto used by ClientAuthenticator::readServerKeyExchange:
base::SrpMath helpers, the RNG draws and the BLAKE2s-256 hash, all outside
the repository sources, passed as parameters. `calcClientKey` returns `none`
where the library returns an invalid BigNum. -/
structure SrpEnv where
  calc_A : Nat → Nat → Nat → Nat
  calc_u : Nat → Nat → Nat → Nat
  calc_x : Nat → List Nat → List Nat → Nat
  calcClientKey : Nat → Nat → Nat → Nat → Nat → Nat → Option Nat
  random_a : List Nat
  random_iv : List Nat
  blake2s : List Nat → List Nat

/-- The external crypto used by ClientAuthenticator::sendClientHello: the
RNG draw for the IV, X25519 key-pair creation, the ECDH shared secret with
the pinned peer key, and BLAKE2s-256; empty outputs model library failure. -/
structure HelloEnv where
  random_iv : List Nat
  keypair_valid : Bool
  ecdh_shared : List Nat
  key_pair_public : List Nat
  blake2s : List Nat → List Nat

/-- The whole observable state of a ClientAuthenticator together with the
record of its externally visible actions. -/
structure Authenticator where
  peer_public_key : List Nat
  identify : ProtoIdentify
  username : List Nat
  password : List Nat
  session_type : Nat
  state : AuthState
  encryption : Nat
  encrypt_iv : List Nat
  decrypt_iv : List Nat
  session_key : List Nat
  bigN : Nat
  bigG : Nat
  bigS : Nat
  bigB : Nat
  bigA : Nat
  littleA : Nat
  peer_version : Option (Nat × Nat × Nat)
  channel_paused : Bool
  listener_attached : Bool
  callbacks : List ErrorCode
  sent : List OutMsg
  installed : List (List Nat × List Nat × List Nat)
deriving DecidableEq

/-- ClientAuthenticator::finished: pause the channel, detach the listener,
invoke the one-shot callback. -/
def finished (a : Authenticator) (e : ErrorCode) : Authenticator :=
  { a with channel_paused := true, listener_attached := false,
           callbacks := a.callbacks ++ [e] }

/-- ClientAuthenticator::onSessionKeyChanged: build an encryptor and a
decryptor for the negotiated cipher from (session_key, encrypt_iv) and
(session_key, decrypt_iv) and install them on the channel. The OpenSSL
constructors are an external library; per their contract they succeed on
the inputs produced here, so the installation is recorded unconditionally. -/
def onSessionKeyChanged (a : Authenticator) : Authenticator :=
  { a with installed := a.installed ++ [(a.session_key, a.encrypt_iv, a.decrypt_iv)] }

/-- The ClientHello encryption bitmask built by
ClientAuthenticator::sendClientHello: ChaCha20-Poly1305 always, AES-256-GCM
or-ed in when base::CPUID::hasAesNi() reports AES-NI. -/
def clientHelloEncryption (aesni : Bool) : Nat :=
  let encryption := ENCRYPTION_CHACHA20_POLY1305
  if aesni then encryption ||| ENCRYPTION_AES256_GCM else encryption

/-- ClientAuthenticator::sendClientHello. -/
def sendClientHello (E : HelloEnv) (aesni : Bool) (a : Authenticator) : Authenticator :=
  if a.identify = ProtoIdentify.IDENTIFY_ANONYMOUS ∧ a.peer_public_key = [] then
    finished a ErrorCode.UNKNOWN_ERROR
  else
    let encryption := clientHelloEncryption aesni
    if a.peer_public_key = [] then
      { a with sent := a.sent ++ [OutMsg.clientHello encryption a.identify [] []] }
    else
      let a1 := { a with encrypt_iv := E.random_iv }
      if a1.encrypt_iv = [] then finished a1 ErrorCode.UNKNOWN_ERROR
      else if E.keypair_valid = false then finished a1 ErrorCode.UNKNOWN_ERROR
      else if E.ecdh_shared = [] then finished a1 ErrorCode.UNKNOWN_ERROR
      else
        let a2 := { a1 with session_key := E.blake2s E.ecdh_shared }
        if a2.session_key = [] then finished a2 ErrorCode.UNKNOWN_ERROR
        else if E.key_pair_public = [] then finished a2 ErrorCode.UNKNOWN_ERROR
        else
          { a2 with sent := a2.sent ++
              [OutMsg.clientHello encryption a2.identify E.key_pair_public a2.encrypt_iv] }

/-- ClientAuthenticator::readServerHello. `m` is the result of parsing the
received buffer as a proto::ServerHello. Returns the updated authenticator
and the boolean the member function returns. -/
def readServerHello (a : Authenticator) (m : Option ServerHelloMsg) :
    Authenticator × Bool :=
  match m with
  | none => (finished a ErrorCode.PROTOCOL_ERROR, false)
  | some sh =>
    let a1 := { a with encryption := sh.encryption }
    if sh.encryption = ENCRYPTION_AES256_GCM ∨
       sh.encryption = ENCRYPTION_CHACHA20_POLY1305 then
      let a2 := { a1 with decrypt_iv := sh.iv }
      if a2.session_key.isEmpty ≠ a2.decrypt_iv.isEmpty then
        (finished a2 ErrorCode.PROTOCOL_ERROR, false)
      else if a2.session_key.isEmpty = false then
        (onSessionKeyChanged a2, true)
      else
        (a2, true)
    else
      (finished a1 ErrorCode.PROTOCOL_ERROR, false)

/-- ClientAuthenticator::sendIdentify. -/
def sendIdentify (a : Authenticator) : Authenticator :=
  { a with sent := a.sent ++ [OutMsg.srpIdentify a.username] }

/-- The anonymous verifyNg helper of client_authenticator.cc: the received
(N, g) bytes must equal the pinned pair selected by N's exact byte length,
and only lengths 512, 768 and 1024 are allowed. -/
def verifyNg (P : NgPairs) (N g : List Nat) : Bool :=
  if N.length = 512 then N == P.p4096.1 && g == P.p4096.2
  else if N.length = 768 then N == P.p6144.1 && g == P.p6144.2
  else if N.length = 1024 then N == P.p8192.1 && g == P.p8192.2
  else false

/-- Modelled from the spec: base::SrpMath::verify_B_mod_N is in
base/crypto/srp_math.cc, outside the sources under study; the spec (§4.1
step 4) requires the client to "Verify B mod N ≠ 0". -/
def verify_B_mod_N (B N : Nat) : Bool :=
  B % N != 0

/-- The SRP client key computed in readServerKeyExchange lines 478-480:
u := calc_u(A, B, N), x := calc_x(s, username, password),
key := calcClientKey(N, B, g, x, a, u); `none` models an invalid key. -/
def srpClientKeyOf (E : SrpEnv) (a : Authenticator)
    (kx : SrpServerKeyExchangeMsg) : Option Nat :=
  let N := beBytesToNat kx.number
  let g := beBytesToNat kx.generator
  let s := beBytesToNat kx.salt
  let B := beBytesToNat kx.b
  let aa := beBytesToNat E.random_a
  let A := E.calc_A aa N g
  let u := E.calc_u A B N
  let x := E.calc_x s a.username a.password
  E.calcClientKey N B g x aa u

/-- ClientAuthenticator::readServerKeyExchange. Note that the
verify_B_mod_N failure and the invalid-key failure return `false` without
calling `finished`, exactly as the source does. -/
def readServerKeyExchange (P : NgPairs) (E : SrpEnv) (a : Authenticator)
    (m : Option SrpServerKeyExchangeMsg) : Authenticator × Bool :=
  match m with
  | none => (finished a ErrorCode.PROTOCOL_ERROR, false)
  | some kx =>
    if kx.salt.length < 64 ∨ kx.b.length < 128 then
      (finished a ErrorCode.PROTOCOL_ERROR, false)
    else if verifyNg P kx.number kx.generator = false then
      (finished a ErrorCode.PROTOCOL_ERROR, false)
    else
      let N := beBytesToNat kx.number
      let B := beBytesToNat kx.b
      let aa := beBytesToNat E.random_a
      let a1 := { a with
        bigN := N,
        bigG := beBytesToNat kx.generator,
        bigS := beBytesToNat kx.salt,
        bigB := B,
        decrypt_iv := kx.iv,
        littleA := aa,
        bigA := E.calc_A aa N (beBytesToNat kx.generator),
        encrypt_iv := E.random_iv }
      if verify_B_mod_N B N = false then
        (a1, false)
      else
        match srpClientKeyOf E a kx with
        | none => (a1, false)
        | some key =>
          let input :=
            (if a1.session_key = [] then [] else a1.session_key) ++ natToBeBytes key
          ({ a1 with session_key := E.blake2s input }, true)

/-- ClientAuthenticator::sendClientKeyExchange. -/
def sendClientKeyExchange (a : Authenticator) : Authenticator :=
  { a with sent := a.sent ++
      [OutMsg.srpClientKeyExchange (natToBeBytes a.bigA) a.encrypt_iv] }

/-- ClientAuthenticator::readSessionChallenge. -/
def readSessionChallenge (a : Authenticator) (m : Option SessionChallengeMsg) :
    Authenticator × Bool :=
  match m with
  | none => (finished a ErrorCode.PROTOCOL_ERROR, false)
  | some ch =>
    if ch.session_types &&& a.session_type = 0 then
      (finished a ErrorCode.SESSION_DENIED, false)
    else
      ({ a with peer_version := some ch.version }, true)

/-- ClientAuthenticator::sendSessionResponse. -/
def sendSessionResponse (a : Authenticator) : Authenticator :=
  { a with sent := a.sent ++ [OutMsg.sessionResponse a.session_type] }

/-- ClientAuthenticator::onMessageReceived: dispatch the received buffer on
the current state; on a `true` return advance the state and send the next
message, on a `false` return keep the machine where the read step left it. -/
def onMessageReceived (P : NgPairs) (E : SrpEnv) (a : Authenticator)
    (buf : BufferView) : Authenticator :=
  match a.state with
  | AuthState.READ_SERVER_HELLO =>
    let r := readServerHello a buf.asServerHello
    if r.2 then
      if r.1.identify = ProtoIdentify.IDENTIFY_ANONYMOUS then
        { r.1 with state := AuthState.READ_SESSION_CHALLENGE }
      else
        sendIdentify { r.1 with state := AuthState.SEND_IDENTIFY }
    else r.1
  | AuthState.READ_SERVER_KEY_EXCHANGE =>
    let r := readServerKeyExchange P E a buf.asKeyExchange
    if r.2 then
      sendClientKeyExchange { r.1 with state := AuthState.SEND_CLIENT_KEY_EXCHANGE }
    else r.1
  | AuthState.READ_SESSION_CHALLENGE =>
    let r := readSessionChallenge a buf.asChallenge
    if r.2 then
      sendSessionResponse { r.1 with state := AuthState.SEND_SESSION_RESPONSE }
    else r.1
  | _ => a

/-- ClientAuthenticator::onMessageWritten. -/
def onMessageWritten (a : Authenticator) : Authenticator :=
  match a.state with
  | AuthState.SEND_CLIENT_HELLO => { a with state := AuthState.READ_SERVER_HELLO }
  | AuthState.SEND_IDENTIFY => { a with state := AuthState.READ_SERVER_KEY_EXCHANGE }
  | AuthState.SEND_CLIENT_KEY_EXCHANGE =>
    onSessionKeyChanged { a with state := AuthState.READ_SESSION_CHALLENGE }
  | AuthState.SEND_SESSION_RESPONSE =>
    finished { a with state := AuthState.FINISHED } ErrorCode.SUCCESS
  | _ => a

/-- ClientAuthenticator::onDisconnected. -/
def onDisconnected (a : Authenticator) (e : ChannelError) : Authenticator :=
  finished a
    (if e = ChannelError.ACCESS_DENIED then ErrorCode.ACCESS_DENIED
     else ErrorCode.NETWORK_ERROR)

end peer

namespace relay

/-- A pair of per-side values, indexed modulo 2 like the socket_ and buffer_
arrays of relay::Session. -/
structure Sides (α : Type) where
  s0 : α
  s1 : α
deriving DecidableEq

/-- Array read socket_[i], index taken modulo the two sides. -/
def Sides.get {α : Type} (x : Sides α) (i : Nat) : α :=
  if i % 2 = 0 then x.s0 else x.s1

/-- Array write socket_[i] := v, index taken modulo the two sides. -/
def Sides.set {α : Type} (x : Sides α) (i : Nat) (v : α) : Sides α :=
  if i % 2 = 0 then { x with s0 := v } else { x with s1 := v }

/-- relay::Session::kNumberOfSides. -/
def kNumberOfSides : Nat := 2

/-- The asio completion outcomes the handlers in session.cc distinguish:
success, asio::error::operation_aborted, and every other error. -/
inductive SockResult
  | ok
  | operation_aborted
  | ioError
deriving DecidableEq

/-- The observable state of a relay::Session, together with the record of
its externally visible actions. `delegate` is the non-nullness of the
delegate_ pointer; `written i` is the stream of bytes successfully written
to socket i; `pending_read i` / `pending_write i` are whether an
async_read_some on socket i / an async_write to socket i is outstanding;
`finished_count` counts the delegate onSessionFinished invocations. -/
structure Session where
  delegate : Bool
  cancelled : Sides Bool
  closed : Sides Bool
  bytes_transferred : Nat
  buffer : Sides (List Nat)
  written : Sides (List Nat)
  pending_read : Sides Bool
  pending_write : Sides (Option (List Nat))
  finished_count : Nat
deriving DecidableEq

/-- Modelled from the spec: the member initializers of relay::Session live
in its header, outside the sources under study; the spec (§3) says the
delegate is optional and the counters start fresh, so a new session has a
null delegate, open uncancelled sockets, and zero counters. -/
def mkSession : Session :=
  { delegate := false
    cancelled := ⟨false, false⟩
    closed := ⟨false, false⟩
    bytes_transferred := 0
    buffer := ⟨[], []⟩
    written := ⟨[], []⟩
    pending_read := ⟨false, false⟩
    pending_write := ⟨none, none⟩
    finished_count := 0 }

/-- relay::Session::doReadSome: arm an async_read_some on the given side. -/
def doReadSome (s : Session) (source : Nat) : Session :=
  { s with pending_read := s.pending_read.set source true }

/-- relay::Session::stop: return immediately when no delegate is installed,
otherwise clear the delegate and cancel and close both sockets. -/
def stop (s : Session) : Session :=
  if s.delegate = false then s
  else
    { s with delegate := false,
             cancelled := ⟨true, true⟩,
             closed := ⟨true, true⟩ }

/-- relay::Session::start: install the delegate (possibly null) and arm a
read on each side. -/
def start (s : Session) (d : Bool) : Session :=
  let s1 := { s with delegate := d }
  doReadSome (doReadSome s1 0) 1

/-- relay::Session::onErrorOccurred: notify the delegate when one is
installed, then stop. -/
def onErrorOccurred (s : Session) : Session :=
  let s1 :=
    if s.delegate then { s with finished_count := s.finished_count + 1 } else s
  stop s1

/-- relay::Session::bytesTransferred. -/
def bytesTransferred (s : Session) : Nat :=
  s.bytes_transferred

/-- The I/O completion events delivered to the handlers in
Session::doReadSome, plus an external stop call. `readComplete source res
data` is the completion of the async_read_some on side `source` (with the
bytes it placed in the buffer); `writeComplete source res` is the
completion of the async_write that the side-`source` read handler issued. -/
inductive Event
  | readComplete (source : Nat) (res : SockResult) (data : List Nat)
  | writeComplete (source : Nat) (res : SockResult)
  | stopCall
deriving DecidableEq

/-- One event step of a relay::Session. A completion is only processed when
the corresponding operation is outstanding (asio delivers one completion per
issued operation). On a successful read of side `source`: account the
bytes, keep them in the buffer, and issue the write to socket
(source + kNumberOfSides - 1) % kNumberOfSides. On a successful write:
record the bytes on the target socket stream and re-arm the side-`source`
read. Non-aborted errors go to onErrorOccurred; operation_aborted is
silently absorbed. -/
def step (s : Session) (e : Event) : Session :=
  match e with
  | Event.readComplete source res data =>
    if s.pending_read.get source = false then s
    else
      let s1 := { s with pending_read := s.pending_read.set source false }
      match res with
      | SockResult.ok =>
        let s2 := { s1 with
          bytes_transferred := s1.bytes_transferred + data.length,
          buffer := s1.buffer.set source data }
        let target := (source + kNumberOfSides - 1) % kNumberOfSides
        { s2 with pending_write := s2.pending_write.set target (some data) }
      | SockResult.operation_aborted => s1
      | SockResult.ioError => onErrorOccurred s1
  | Event.writeComplete source res =>
    let target := (source + kNumberOfSides - 1) % kNumberOfSides
    match s.pending_write.get target with
    | none => s
    | some data =>
      let s1 := { s with pending_write := s.pending_write.set target none }
      match res with
      | SockResult.ok =>
        let s2 := { s1 with
          written := s1.written.set target (s1.written.get target ++ data) }
        doReadSome s2 source
      | SockResult.operation_aborted => s1
      | SockResult.ioError => onErrorOccurred s1
  | Event.stopCall => stop s

/-- Run a list of events through `step`. -/
def runEvents (s : Session) : List Event → Session
  | [] => s
  | e :: rest => runEvents (step s e) rest

/-- The number of bytes a single event adds to the counter: the length of
the data of a successful read completion on an armed side, zero otherwise.
Specification-side definition used to state byte accounting. -/
def readIncrement (s : Session) (e : Event) : Nat :=
  match e with
  | Event.readComplete source SockResult.ok data =>
    if s.pending_read.get source then data.length else 0
  | _ => 0

/-- Specification-side invariant for the at-most-once delegate contract: a
still-installed delegate has never been notified, and the notification
count never exceeds one. -/
def delegateInv (s : Session) : Prop :=
  (s.delegate = true → s.finished_count = 0) ∧ s.finished_count ≤ 1

end relay

/-
Concrete inputs used to exercise the model at specific points.
-/

/-- A freshly configured authenticator: SRP identity, no pinned key,
session type bit 1, handshake not yet started. -/
def auth0 : peer.Authenticator :=
  { peer_public_key := []
    identify := peer.ProtoIdentify.IDENTIFY_SRP
    username := [97]
    password := [98]
    session_type := 1
    state := peer.AuthState.SEND_CLIENT_HELLO
    encryption := 0
    encrypt_iv := []
    decrypt_iv := []
    session_key := []
    bigN := 0
    bigG := 0
    bigS := 0
    bigB := 0
    bigA := 0
    littleA := 0
    peer_version := none
    channel_paused := false
    listener_attached := true
    callbacks := []
    sent := []
    installed := [] }

/-- A 512-byte modulus standing in for the pinned 4096-bit group. -/
def bigN512 : List Nat :=
  List.replicate 512 3

/-- Concrete pinned-group parameters for evaluating the model. -/
def ngPairs0 : peer.NgPairs :=
  { p4096 := (bigN512, [5])
    p6144 := ([], [])
    p8192 := ([], []) }

/-- A concrete crypto environment whose client key is valid. -/
def srpEnv0 : peer.SrpEnv :=
  { calc_A := fun _ _ _ => 0
    calc_u := fun _ _ _ => 0
    calc_x := fun _ _ _ => 0
    calcClientKey := fun _ _ _ _ _ _ => some 7
    random_a := [1]
    random_iv := List.replicate 12 9
    blake2s := fun l => l }

/-- A concrete crypto environment whose client key computation fails. -/
def srpEnvBadKey : peer.SrpEnv :=
  { srpEnv0 with calcClientKey := fun _ _ _ _ _ _ => none }

/-- A concrete hello-step crypto environment where every primitive
succeeds. -/
def helloEnv0 : peer.HelloEnv :=
  { random_iv := List.replicate 12 5
    keypair_valid := true
    ecdh_shared := [1, 2]
    key_pair_public := [3]
    blake2s := fun l => l }

/-- A well-formed SrpServerKeyExchange over the concrete group: 64-byte
salt, 128-byte B smaller than N (so B mod N is nonzero). -/
def kxGood : peer.SrpServerKeyExchangeMsg :=
  { number := bigN512
    generator := [5]
    salt := List.replicate 64 0
    b := 1 :: List.replicate 127 0
    iv := List.replicate 12 2 }

/-- An SrpServerKeyExchange that passes every size and group check but has
B equal to N, so that B mod N is zero. -/
def kxZeroB : peer.SrpServerKeyExchangeMsg :=
  { kxGood with b := bigN512 }

/-- An SrpServerKeyExchange with a 3-byte modulus. -/
def kxBadGroup : peer.SrpServerKeyExchangeMsg :=
  { kxGood with number := [1, 2, 3] }

/-- A buffer that parses as an SrpServerKeyExchange only. -/
def bufKx (m : peer.SrpServerKeyExchangeMsg) : peer.BufferView :=
  { asServerHello := none
    asKeyExchange := some m
    asChallenge := none }

/-- A buffer that parses as a SessionChallenge only. -/
def bufCh (m : peer.SessionChallengeMsg) : peer.BufferView :=
  { asServerHello := none
    asKeyExchange := none
    asChallenge := some m }

/-- auth0 placed in the READ_SERVER_KEY_EXCHANGE state. -/
def authAtKx : peer.Authenticator :=
  { auth0 with state := peer.AuthState.READ_SERVER_KEY_EXCHANGE }

/-- auth0 placed in the READ_SESSION_CHALLENGE state. -/
def authAtCh : peer.Authenticator :=
  { auth0 with state := peer.AuthState.READ_SESSION_CHALLENGE }

/-- An authenticator that pinned a key: 32-byte session key and fresh
encrypt IV, waiting for the ServerHello. -/
def authPinned : peer.Authenticator :=
  { auth0 with
    state := peer.AuthState.READ_SERVER_HELLO
    session_key := List.replicate 32 7
    encrypt_iv := List.replicate 12 1 }

/-- A ServerHello selecting AES-256-GCM with no echoed IV. -/
def shAes : peer.ServerHelloMsg :=
  { encryption := peer.ENCRYPTION_AES256_GCM, iv := [] }

/-- A ServerHello selecting ChaCha20-Poly1305 and echoing an IV. -/
def shChachaIv : peer.ServerHelloMsg :=
  { encryption := peer.ENCRYPTION_CHACHA20_POLY1305, iv := List.replicate 12 4 }

/-- A ServerHello carrying an out-of-range cipher value. -/
def shBadCipher : peer.ServerHelloMsg :=
  { encryption := 9, iv := [] }

/-- A SessionChallenge whose mask misses session type bit 1. -/
def chDeny : peer.SessionChallengeMsg :=
  { session_types := 0, version := (2, 5, 0) }

/-- A SessionChallenge whose mask includes session type bit 1. -/
def chAllow : peer.SessionChallengeMsg :=
  { session_types := 3, version := (2, 5, 1) }

/-- A started relay session: delegate installed, both reads armed. -/
def relayStarted : relay.Session :=
  relay.start relay.mkSession true

/-
Theorems.
-/

/-- C7: the ClientHello encryption bitmask always contains
ChaCha20-Poly1305, and contains AES-256-GCM exactly when the CPU-feature
probe reports AES-NI. -/
theorem clientHello_cipher_mask (b : Bool) :
    peer.clientHelloEncryption b &&& peer.ENCRYPTION_CHACHA20_POLY1305 ≠ 0 ∧
    (peer.clientHelloEncryption b &&& peer.ENCRYPTION_AES256_GCM ≠ 0 ↔ b = true) := by
  cases b <;> decide

/-- C6: on a SessionChallenge, the handshake fails with SESSION_DENIED
exactly when the server mask and the requested session type have empty
intersection (in particular whenever the mask is zero); otherwise the peer
version is recorded and the machine advances to SEND_SESSION_RESPONSE. -/
theorem sessionChallenge_gate (P : peer.NgPairs) (E : peer.SrpEnv)
    (a : peer.Authenticator) (buf : peer.BufferView)
    (ch : peer.SessionChallengeMsg)
    (hst : a.state = peer.AuthState.READ_SESSION_CHALLENGE)
    (hbuf : buf.asChallenge = some ch) :
    (ch.session_types &&& a.session_type = 0 →
      (peer.onMessageReceived P E a buf).callbacks =
        a.callbacks ++ [peer.ErrorCode.SESSION_DENIED] ∧
      (peer.onMessageReceived P E a buf).sent = a.sent) ∧
    (ch.session_types = 0 →
      (peer.onMessageReceived P E a buf).callbacks =
        a.callbacks ++ [peer.ErrorCode.SESSION_DENIED]) ∧
    (ch.session_types &&& a.session_type ≠ 0 →
      (peer.onMessageReceived P E a buf).callbacks = a.callbacks ∧
      (peer.onMessageReceived P E a buf).peer_version = some ch.version ∧
      (peer.onMessageReceived P E a buf).state =
        peer.AuthState.SEND_SESSION_RESPONSE) := by
  by_cases h : ch.session_types &&& a.session_type = 0
  · refine ⟨fun _ => ?_, fun _ => ?_, fun hne => absurd h hne⟩ <;>
      simp [peer.onMessageReceived, hst, hbuf, peer.readSessionChallenge, h,
        peer.finished]
  · have h0 : ch.session_types ≠ 0 := by
      intro hz
      exact h (by simp [hz])
    refine ⟨fun hz => absurd hz h, fun hz => absurd hz h0, fun _ => ?_⟩
    simp [peer.onMessageReceived, hst, hbuf, peer.readSessionChallenge, h,
      peer.sendSessionResponse]

/-- C6 witness: the gate evaluated at a denying challenge (mask 0) and at
an allowing challenge (mask 3 against requested type 1). -/
theorem sessionChallenge_gate_case :
    (peer.onMessageReceived ngPairs0 srpEnv0 authAtCh (bufCh chDeny)).callbacks =
      authAtCh.callbacks ++ [peer.ErrorCode.SESSION_DENIED] ∧
    (peer.onMessageReceived ngPairs0 srpEnv0 authAtCh (bufCh chAllow)).peer_version =
      some chAllow.version ∧
    (peer.onMessageReceived ngPairs0 srpEnv0 authAtCh (bufCh chAllow)).state =
      peer.AuthState.SEND_SESSION_RESPONSE := by
  refine ⟨?_, ?_, ?_⟩
  · exact (sessionChallenge_gate ngPairs0 srpEnv0 authAtCh (bufCh chDeny) chDeny
      rfl rfl).1 (by decide) |>.1
  · exact ((sessionChallenge_gate ngPairs0 srpEnv0 authAtCh (bufCh chAllow) chAllow
      rfl rfl).2.2 (by decide)).2.1
  · exact ((sessionChallenge_gate ngPairs0 srpEnv0 authAtCh (bufCh chAllow) chAllow
      rfl rfl).2.2 (by decide)).2.2

/-- C5 counterexample: with AES-NI absent the client advertises only
ChaCha20-Poly1305 (the mask has no AES bit), yet a ServerHello selecting
AES-256-GCM is accepted: readServerHello returns true and no PROTOCOL_ERROR
callback fires, contradicting the claim. -/
theorem aes_accepted_without_advertisement :
    peer.clientHelloEncryption false &&& peer.ENCRYPTION_AES256_GCM = 0 ∧
    (peer.readServerHello auth0 (some shAes)).2 = true ∧
    (peer.readServerHello auth0 (some shAes)).1.callbacks = [] := by
  decide

/-- C5 amended: the client checks only that the selected cipher is one of
the two known values; a cipher outside that set yields PROTOCOL_ERROR,
while AES-256-GCM is accepted whether or not it was advertised. -/
theorem serverHello_cipher_validation (a : peer.Authenticator)
    (sh : peer.ServerHelloMsg) :
    (sh.encryption ≠ peer.ENCRYPTION_AES256_GCM ∧
     sh.encryption ≠ peer.ENCRYPTION_CHACHA20_POLY1305 →
      (peer.readServerHello a (some sh)).2 = false ∧
      (peer.readServerHello a (some sh)).1.callbacks =
        a.callbacks ++ [peer.ErrorCode.PROTOCOL_ERROR]) ∧
    (sh.encryption = peer.ENCRYPTION_AES256_GCM →
     a.session_key.isEmpty = sh.iv.isEmpty →
      (peer.readServerHello a (some sh)).2 = true) := by
  constructor
  · intro h
    have hc : ¬(sh.encryption = peer.ENCRYPTION_AES256_GCM ∨
        sh.encryption = peer.ENCRYPTION_CHACHA20_POLY1305) := by
      rcases h with ⟨h1, h2⟩
      rintro (h | h) <;> [exact h1 h; exact h2 h]
    simp [peer.readServerHello, hc, peer.finished]
  · intro h1 h2
    have hc : sh.encryption = peer.ENCRYPTION_AES256_GCM ∨
        sh.encryption = peer.ENCRYPTION_CHACHA20_POLY1305 := Or.inl h1
    by_cases hk : a.session_key.isEmpty = false <;>
      simp [peer.readServerHello, hc, h2, hk, peer.onSessionKeyChanged] <;>
      split <;> rfl

/-- C5 amended witness: a cipher value of 9 is rejected with
PROTOCOL_ERROR, and AES-256-GCM is accepted by a client that never
advertised it. -/
theorem serverHello_cipher_validation_case :
    (peer.readServerHello auth0 (some shBadCipher)).2 = false ∧
    (peer.readServerHello auth0 (some shBadCipher)).1.callbacks =
      auth0.callbacks ++ [peer.ErrorCode.PROTOCOL_ERROR] ∧
    (peer.readServerHello auth0 (some shAes)).2 = true := by
  refine ⟨?_, ?_, ?_⟩
  · exact ((serverHello_cipher_validation auth0 shBadCipher).1 (by decide)).1
  · exact ((serverHello_cipher_validation auth0 shBadCipher).1 (by decide)).2
  · exact (serverHello_cipher_validation auth0 shAes).2 rfl (by decide)

/-- C4: processing a ServerHello whose IV presence disagrees with the
presence of an ECDH session key (client sent an IV iff it pinned a key)
fails with PROTOCOL_ERROR; when both are present the AEAD encryptor and
decryptor are installed on the channel at this point, keyed by
(session_key, encrypt_iv) and (session_key, received iv). -/
theorem serverHello_iv_presence (a : peer.Authenticator)
    (sh : peer.ServerHelloMsg)
    (henc : sh.encryption = peer.ENCRYPTION_AES256_GCM ∨
            sh.encryption = peer.ENCRYPTION_CHACHA20_POLY1305) :
    (a.session_key.isEmpty ≠ sh.iv.isEmpty →
      (peer.readServerHello a (some sh)).2 = false ∧
      (peer.readServerHello a (some sh)).1.callbacks =
        a.callbacks ++ [peer.ErrorCode.PROTOCOL_ERROR]) ∧
    (a.session_key ≠ [] → sh.iv ≠ [] →
      (peer.readServerHello a (some sh)).2 = true ∧
      (peer.readServerHello a (some sh)).1.installed =
        a.installed ++ [(a.session_key, a.encrypt_iv, sh.iv)]) := by
  constructor
  · intro hmis
    simp [peer.readServerHello, henc, hmis, peer.finished]
  · intro hk hiv
    have hk2 : a.session_key.isEmpty = false := by
      simp [List.isEmpty_iff, hk]
    have hiv2 : sh.iv.isEmpty = false := by
      simp [List.isEmpty_iff, hiv]
    simp [peer.readServerHello, henc, hk2, hiv2, peer.onSessionKeyChanged]

/-- C4 witness: a pinned-key client receiving a ChaCha20-Poly1305
ServerHello carrying an IV installs the AEAD pair and continues. -/
theorem serverHello_iv_presence_case :
    (peer.readServerHello authPinned (some shChachaIv)).2 = true ∧
    (peer.readServerHello authPinned (some shChachaIv)).1.installed =
      authPinned.installed ++
        [(authPinned.session_key, authPinned.encrypt_iv, shChachaIv.iv)] := by
  exact (serverHello_iv_presence authPinned shChachaIv (Or.inr rfl)).2
    (by decide) (by decide)

/-- C3: an SrpServerKeyExchange with a short salt, a short B, or an (N, g)
pair that is not the pinned constant for its length finishes with
PROTOCOL_ERROR and sends no further message. -/
theorem serverKeyExchange_validation (P : peer.NgPairs) (E : peer.SrpEnv)
    (a : peer.Authenticator) (buf : peer.BufferView)
    (kx : peer.SrpServerKeyExchangeMsg)
    (hst : a.state = peer.AuthState.READ_SERVER_KEY_EXCHANGE)
    (hbuf : buf.asKeyExchange = some kx)
    (hbad : kx.salt.length < 64 ∨ kx.b.length < 128 ∨
            peer.verifyNg P kx.number kx.generator = false) :
    (peer.onMessageReceived P E a buf).callbacks =
      a.callbacks ++ [peer.ErrorCode.PROTOCOL_ERROR] ∧
    (peer.onMessageReceived P E a buf).sent = a.sent := by
  by_cases hsz : kx.salt.length < 64 ∨ kx.b.length < 128
  · simp [peer.onMessageReceived, hst, hbuf, peer.readServerKeyExchange, hsz,
      peer.finished]
  · have hng : peer.verifyNg P kx.number kx.generator = false := by
      rcases hbad with h | h | h
      · exact absurd (Or.inl h) hsz
      · exact absurd (Or.inr h) hsz
      · exact h
    simp [peer.onMessageReceived, hst, hbuf, peer.readServerKeyExchange, hsz,
      hng, peer.finished]

/-- C3 witness: a 3-byte modulus is rejected with PROTOCOL_ERROR and
nothing further is sent. -/
theorem serverKeyExchange_validation_case :
    (peer.onMessageReceived ngPairs0 srpEnv0 authAtKx (bufKx kxBadGroup)).callbacks =
      authAtKx.callbacks ++ [peer.ErrorCode.PROTOCOL_ERROR] ∧
    (peer.onMessageReceived ngPairs0 srpEnv0 authAtKx (bufKx kxBadGroup)).sent =
      authAtKx.sent := by
  exact serverKeyExchange_validation ngPairs0 srpEnv0 authAtKx (bufKx kxBadGroup)
    kxBadGroup rfl rfl (Or.inr (Or.inr (by decide)))

/-- C2: a successful SrpServerKeyExchange sets the session key to
BLAKE2s-256 of prior_session_key concatenated with the SRP key bytes; with
an empty prior key the result is BLAKE2s-256 of the SRP key bytes alone.
The prior key is the one from the ClientHello step: with no pinned peer
public key, sendClientHello leaves the session key untouched (hence empty),
and readServerHello never changes it. -/
theorem srp_key_mixing (P : peer.NgPairs) (E : peer.SrpEnv)
    (a : peer.Authenticator) (kx : peer.SrpServerKeyExchangeMsg) (k : Nat)
    (E2 : peer.HelloEnv) (b2 : Bool) (a2 a3 : peer.Authenticator)
    (m : Option peer.ServerHelloMsg)
    (hsalt : ¬kx.salt.length < 64) (hb : ¬kx.b.length < 128)
    (hng : peer.verifyNg P kx.number kx.generator = true)
    (hmod : peer.verify_B_mod_N (beBytesToNat kx.b) (beBytesToNat kx.number) = true)
    (hkey : peer.srpClientKeyOf E a kx = some k)
    (hpk : a2.peer_public_key = []) :
    (peer.readServerKeyExchange P E a (some kx)).2 = true ∧
    (peer.readServerKeyExchange P E a (some kx)).1.session_key =
      E.blake2s (a.session_key ++ natToBeBytes k) ∧
    (a.session_key = [] →
      (peer.readServerKeyExchange P E a (some kx)).1.session_key =
        E.blake2s (natToBeBytes k)) ∧
    (peer.sendClientHello E2 b2 a2).session_key = a2.session_key ∧
    (peer.readServerHello a3 m).1.session_key = a3.session_key := by
  have hsz : ¬(kx.salt.length < 64 ∨ kx.b.length < 128) := not_or.mpr ⟨hsalt, hb⟩
  have hng2 : ¬peer.verifyNg P kx.number kx.generator = false := by simp [hng]
  have hmod2 :
      ¬peer.verify_B_mod_N (beBytesToNat kx.b) (beBytesToNat kx.number) = false := by
    simp [hmod]
  refine ⟨?_, ?_, ?_, ?_, ?_⟩
  · simp [peer.readServerKeyExchange, hsz, hng2, hmod2, hkey]
  · by_cases hak : a.session_key = [] <;>
      simp [peer.readServerKeyExchange, hsz, hng2, hmod2, hkey, hak]
  · intro hak
    simp [peer.readServerKeyExchange, hsz, hng2, hmod2, hkey, hak]
  · by_cases hid : a2.identify = peer.ProtoIdentify.IDENTIFY_ANONYMOUS <;>
      simp [peer.sendClientHello, hpk, hid, peer.finished]
  · rcases m with _ | sh
    · simp [peer.readServerHello, peer.finished]
    · simp only [peer.readServerHello]
      split
      · split
        · simp [peer.finished]
        · split <;> simp [peer.onSessionKeyChanged]
      · simp [peer.finished]

set_option maxRecDepth 100000 in
/-- C2 witness: over the concrete group, SRP key 7 and an empty prior key,
the new session key is BLAKE2s of the SRP key bytes alone; a client without
a pinned key keeps its (empty) session key through sendClientHello. -/
theorem srp_key_mixing_case :
    (peer.readServerKeyExchange ngPairs0 srpEnv0 authAtKx (some kxGood)).2 = true ∧
    (peer.readServerKeyExchange ngPairs0 srpEnv0 authAtKx (some kxGood)).1.session_key =
      srpEnv0.blake2s (natToBeBytes 7) ∧
    (peer.sendClientHello helloEnv0 false auth0).session_key = auth0.session_key := by
  have h := srp_key_mixing ngPairs0 srpEnv0 authAtKx kxGood 7 helloEnv0 false
    auth0 auth0 none (by decide) (by decide) (by decide) (by decide) rfl rfl
  exact ⟨h.1, h.2.2.1 rfl, h.2.2.2.1⟩

set_option maxRecDepth 100000 in
/-- C1: refuted by the source. In the READ_SERVER_KEY_EXCHANGE state, an
SrpServerKeyExchange that passes the size and group checks but has
B mod N = 0 (here B = N), and likewise one for which the SRP client key
computation fails, make readServerKeyExchange return false without calling
finished: no callback fires, nothing is sent, and the machine stays in
READ_SERVER_KEY_EXCHANGE instead of reaching the terminal failure path. -/
theorem srp_failure_branches_stuck :
    (peer.onMessageReceived ngPairs0 srpEnv0 authAtKx (bufKx kxZeroB)).state =
      peer.AuthState.READ_SERVER_KEY_EXCHANGE ∧
    (peer.onMessageReceived ngPairs0 srpEnv0 authAtKx (bufKx kxZeroB)).callbacks = [] ∧
    (peer.onMessageReceived ngPairs0 srpEnv0 authAtKx (bufKx kxZeroB)).sent = [] ∧
    (peer.onMessageReceived ngPairs0 srpEnvBadKey authAtKx (bufKx kxGood)).state =
      peer.AuthState.READ_SERVER_KEY_EXCHANGE ∧
    (peer.onMessageReceived ngPairs0 srpEnvBadKey authAtKx (bufKx kxGood)).callbacks =
      [] := by
  refine ⟨?_, ?_, ?_, ?_, ?_⟩ <;> rfl

/-- Helper: stop never changes the byte counter. -/
theorem stop_bytes (t : relay.Session) :
    (relay.stop t).bytes_transferred = t.bytes_transferred := by
  unfold relay.stop
  split <;> rfl

/-- Helper: stop never changes the notification count. -/
theorem stop_finished_count (t : relay.Session) :
    (relay.stop t).finished_count = t.finished_count := by
  unfold relay.stop
  split <;> rfl

/-- Helper: after stop the delegate is gone. -/
theorem stop_delegate (t : relay.Session) : (relay.stop t).delegate = false := by
  unfold relay.stop
  split
  · assumption
  · rfl

/-- Helper: onErrorOccurred never changes the byte counter. -/
theorem onError_bytes (t : relay.Session) :
    (relay.onErrorOccurred t).bytes_transferred = t.bytes_transferred := by
  unfold relay.onErrorOccurred
  rw [stop_bytes]
  split <;> rfl

/-- Helper: every step changes the byte counter by exactly the size of the
successful read it processes (and by nothing otherwise). -/
theorem relay_step_bytes (s : relay.Session) (e : relay.Event) :
    relay.bytesTransferred (relay.step s e) =
      relay.bytesTransferred s + relay.readIncrement s e := by
  rcases e with ⟨src, res, data⟩ | ⟨src, res⟩ | _
  · rcases res <;> by_cases hp : s.pending_read.get src = false <;>
      simp [relay.step, relay.readIncrement, relay.bytesTransferred, hp,
        onError_bytes]
  · rcases hpw : s.pending_write.get
        ((src + relay.kNumberOfSides - 1) % relay.kNumberOfSides) with _ | d <;>
      rcases res <;>
      simp [relay.step, hpw, relay.readIncrement, relay.bytesTransferred,
        relay.doReadSome, onError_bytes]
  · simp [relay.step, relay.readIncrement, relay.bytesTransferred, stop_bytes]

/-- Helper: onErrorOccurred preserves the delegate invariant. -/
theorem onError_inv (t : relay.Session) (h : relay.delegateInv t) :
    relay.delegateInv (relay.onErrorOccurred t) := by
  obtain ⟨h1, h2⟩ := h
  by_cases hd : t.delegate = true
  · have h0 := h1 hd
    unfold relay.delegateInv
    simp [relay.onErrorOccurred, relay.stop, hd, h0]
  · have hd2 : t.delegate = false := by
      revert hd
      cases t.delegate <;> simp
    unfold relay.delegateInv
    simp [relay.onErrorOccurred, relay.stop, hd2, h2]

/-- Helper: every step preserves the delegate invariant. -/
theorem relay_step_inv (s : relay.Session) (e : relay.Event)
    (h : relay.delegateInv s) : relay.delegateInv (relay.step s e) := by
  obtain ⟨h1, h2⟩ := h
  rcases e with ⟨src, res, data⟩ | ⟨src, res⟩ | _
  · simp only [relay.step]
    split
    · exact ⟨h1, h2⟩
    · rcases res
      · exact ⟨h1, h2⟩
      · exact ⟨h1, h2⟩
      · exact onError_inv _ ⟨h1, h2⟩
  · simp only [relay.step]
    rcases hpw : s.pending_write.get
        ((src + relay.kNumberOfSides - 1) % relay.kNumberOfSides) with _ | d
    · exact ⟨h1, h2⟩
    · rcases res
      · exact ⟨h1, h2⟩
      · exact ⟨h1, h2⟩
      · exact onError_inv _ ⟨h1, h2⟩
  · simp only [relay.step]
    unfold relay.stop
    split
    · exact ⟨h1, h2⟩
    · exact ⟨fun hc => absurd hc (by simp), h2⟩

/-- Helper: a whole event trace preserves the delegate invariant. -/
theorem relay_run_inv (tr : List relay.Event) (s : relay.Session)
    (h : relay.delegateInv s) : relay.delegateInv (relay.runEvents s tr) := by
  induction tr generalizing s with
  | nil => exact h
  | cons e rest ih => exact ih (relay.step s e) (relay_step_inv s e h)

/-- C8: a successful read of n bytes on side i adds n to the cumulative
counter and issues a write of exactly those bytes to socket (i + 1) mod 2
(nothing reaches the opposite stream yet and the side-i read is disarmed);
the write completion then appends exactly those bytes, in order, to the
opposite socket stream and only then re-arms the read on side i. In
general, every step changes bytesTransferred by exactly the size of the
successful read it processes, on either side. -/
theorem relay_forwarding (s : relay.Session) (i : Nat) (data : List Nat)
    (hi : i < 2) (hp : s.pending_read.get i = true) :
    relay.bytesTransferred
        (relay.step s (relay.Event.readComplete i relay.SockResult.ok data)) =
      relay.bytesTransferred s + data.length ∧
    (relay.step s (relay.Event.readComplete i relay.SockResult.ok data)).pending_write.get
        ((i + 1) % 2) = some data ∧
    (relay.step s (relay.Event.readComplete i relay.SockResult.ok data)).pending_read.get
        i = false ∧
    (relay.step s (relay.Event.readComplete i relay.SockResult.ok data)).written =
      s.written ∧
    (relay.step (relay.step s (relay.Event.readComplete i relay.SockResult.ok data))
        (relay.Event.writeComplete i relay.SockResult.ok)).written.get ((i + 1) % 2) =
      s.written.get ((i + 1) % 2) ++ data ∧
    (relay.step (relay.step s (relay.Event.readComplete i relay.SockResult.ok data))
        (relay.Event.writeComplete i relay.SockResult.ok)).pending_read.get i = true ∧
    (∀ (t : relay.Session) (e : relay.Event),
      relay.bytesTransferred (relay.step t e) =
        relay.bytesTransferred t + relay.readIncrement t e) := by
  have hi2 : i = 0 ∨ i = 1 := by omega
  rcases hi2 with rfl | rfl <;>
    simp [relay.Sides.get] at hp <;>
    refine ⟨?_, ?_, ?_, ?_, ?_, ?_, fun t e => relay_step_bytes t e⟩ <;>
    simp [relay.step, relay.doReadSome, relay.bytesTransferred, relay.Sides.get,
      relay.Sides.set, relay.kNumberOfSides, hp]

/-- C8 witness: on a started session, reading bytes 10, 20 on side 0 adds 2
to the counter and, after the paired write completes, socket 1 has received
exactly those bytes and the side-0 read is re-armed. -/
theorem relay_forwarding_case :
    relay.bytesTransferred
        (relay.step relayStarted
          (relay.Event.readComplete 0 relay.SockResult.ok [10, 20])) =
      relay.bytesTransferred relayStarted + [10, 20].length ∧
    (relay.step (relay.step relayStarted
          (relay.Event.readComplete 0 relay.SockResult.ok [10, 20]))
        (relay.Event.writeComplete 0 relay.SockResult.ok)).written.get ((0 + 1) % 2) =
      relayStarted.written.get ((0 + 1) % 2) ++ [10, 20] ∧
    (relay.step (relay.step relayStarted
          (relay.Event.readComplete 0 relay.SockResult.ok [10, 20]))
        (relay.Event.writeComplete 0 relay.SockResult.ok)).pending_read.get 0 = true := by
  have h := relay_forwarding relayStarted 0 [10, 20] (by decide) (by decide)
  exact ⟨h.1, h.2.2.2.2.1, h.2.2.2.2.2.1⟩

/-- C9: stop is idempotent; starting from an un-notified session every
event trace notifies the delegate at most once; stopping a session whose
delegate is installed cancels and closes both sockets and clears the
delegate; operation_aborted completions never touch the notification
count. -/
theorem relay_teardown_contract :
    (∀ s : relay.Session, relay.stop (relay.stop s) = relay.stop s) ∧
    (∀ (s : relay.Session) (tr : List relay.Event),
      s.finished_count = 0 → (relay.runEvents s tr).finished_count ≤ 1) ∧
    (∀ s : relay.Session, s.delegate = true →
      (relay.stop s).cancelled = ⟨true, true⟩ ∧
      (relay.stop s).closed = ⟨true, true⟩ ∧
      (relay.stop s).delegate = false) ∧
    (∀ (s : relay.Session) (i : Nat) (d : List Nat),
      (relay.step s
        (relay.Event.readComplete i relay.SockResult.operation_aborted d)).finished_count =
        s.finished_count ∧
      (relay.step s
        (relay.Event.writeComplete i relay.SockResult.operation_aborted)).finished_count =
        s.finished_count) := by
  refine ⟨?_, ?_, ?_, ?_⟩
  · intro s
    by_cases hd : s.delegate = false <;> simp [relay.stop, hd]
  · intro s tr h0
    have hinv : relay.delegateInv s := ⟨fun _ => h0, by omega⟩
    exact (relay_run_inv tr s hinv).2
  · intro s hd
    simp [relay.stop, hd]
  · intro s i d
    constructor
    · by_cases hp : s.pending_read.get i = false <;> simp [relay.step, hp]
    · simp only [relay.step]
      rcases hpw : s.pending_write.get
          ((i + relay.kNumberOfSides - 1) % relay.kNumberOfSides) with _ | dd <;> rfl

/-- C9 witness: on a started session a second stop changes nothing more,
errors on both directions still notify at most once, and stop closes both
sockets. -/
theorem relay_teardown_contract_case :
    relay.stop (relay.stop relayStarted) = relay.stop relayStarted ∧
    (relay.runEvents relayStarted
      [relay.Event.readComplete 0 relay.SockResult.ioError [],
       relay.Event.readComplete 1 relay.SockResult.ioError []]).finished_count ≤ 1 ∧
    (relay.stop relayStarted).closed = ⟨true, true⟩ ∧
    (relay.step relayStarted
      (relay.Event.readComplete 0 relay.SockResult.operation_aborted [7])).finished_count =
      relayStarted.finished_count := by
  have h := relay_teardown_contract
  exact ⟨h.1 relayStarted,
    h.2.1 relayStarted _ rfl,
    (h.2.2.1 relayStarted rfl).2.1,
    (h.2.2.2 relayStarted 0 [7]).1⟩

/-- C10: stop treats a non-null delegate as its started flag: with no
delegate installed (never started, or started with a null delegate) stop
returns immediately and the sockets are untouched; only a start that
installed a delegate makes stop cancel and close both sockets. -/
theorem relay_stop_requires_delegate :
    (∀ s : relay.Session, s.delegate = false → relay.stop s = s) ∧
    (∀ s : relay.Session,
      relay.stop (relay.start s false) = relay.start s false) ∧
    (∀ s : relay.Session,
      (relay.stop (relay.start s false)).closed = s.closed ∧
      (relay.stop (relay.start s false)).cancelled = s.cancelled) ∧
    relay.stop relay.mkSession = relay.mkSession ∧
    (∀ s : relay.Session,
      (relay.stop (relay.start s true)).closed = ⟨true, true⟩ ∧
      (relay.stop (relay.start s true)).cancelled = ⟨true, true⟩) := by
  refine ⟨?_, ?_, ?_, ?_, ?_⟩
  · intro s hd
    simp [relay.stop, hd]
  · intro s
    simp [relay.stop, relay.start, relay.doReadSome]
  · intro s
    simp [relay.stop, relay.start, relay.doReadSome]
  · rfl
  · intro s
    simp [relay.stop, relay.start, relay.doReadSome]

/-- C10 witness: a fresh session is untouched by stop; after a null-delegate
start, stop leaves the sockets open; after a real start, stop closes them. -/
theorem relay_stop_requires_delegate_case :
    relay.stop relay.mkSession = relay.mkSession ∧
    (relay.stop (relay.start relay.mkSession false)).closed = relay.mkSession.closed ∧
    (relay.stop (relay.start relay.mkSession true)).closed = ⟨true, true⟩ := by
  have h := relay_stop_requires_delegate
  exact ⟨h.1 relay.mkSession rfl,
    (h.2.2.1 relay.mkSession).1,
    (h.2.2.2.2 relay.mkSession).1⟩
